import Mathlib

/-!
Shallow embedding of the hello-wasm WebGL renderer (src/src/lib.rs).

The graphics context is modelled as an oracle structure: each fallible or
value-returning WebGL query is a field giving the value the context would
return.  Stateful WebGL commands are recorded as a trace (a list of GLCall
events) so that ordering and call-count properties can be stated.  32-bit
floating point values appearing in the program are exact dyadic rationals
(except the near plane 0.1 which no claim inspects), so they are modelled
as rationals.
-/

namespace HelloWasm

/-- WebGL enum constants used by the source, with their numeric values. -/
def VERTEX_SHADER : Nat := 35633

def FRAGMENT_SHADER : Nat := 35632

def COMPILE_STATUS : Nat := 35713

def LINK_STATUS : Nat := 35714

def ARRAY_BUFFER : Nat := 34962

def STATIC_DRAW : Nat := 35044

def COLOR_BUFFER_BIT : Nat := 16384

def DEPTH_BUFFER_BIT : Nat := 256

def DEPTH_TEST : Nat := 2929

def LEQUAL : Nat := 515

def FLOAT : Nat := 5126

def TRIANGLE_STRIP : Nat := 5

/-- A JavaScript value as returned by get_shader_parameter /
get_program_parameter: it may be a boolean, or something that is not a
boolean (undefined, null, a number, ...). -/
inductive JsVal where
  | boolean (b : Bool)
  | undef
  | other
  deriving DecidableEq, Repr

/-- Rust side: JsValue::as_bool, returning Some only for booleans. -/
def JsVal.asBool : JsVal → Option Bool
  | .boolean b => some b
  | _ => none

/-- One stateful WebGL command issued by the program (shader and program
object manipulation commands that no claim inspects are not traced). -/
inductive GLCall where
  | bindBuffer (target : Nat) (buffer : Option Nat)
  | bufferData (target : Nat) (data : List ℚ) (usage : Nat)
  | clearColor (r g b a : ℚ)
  | clearDepth (d : ℚ)
  | enable (cap : Nat)
  | depthFunc (fn : Nat)
  | clear (mask : Nat)
  | vertexAttribPointer (loc : Nat) (numComponents : Int) (ty : Nat)
      (normalize : Bool) (stride off : Int)
  | enableVertexAttribArray (loc : Nat)
  | useProgram (program : Option Nat)
  | uniformMatrix4fv (loc : Option Nat) (transpose : Bool) (data : List ℚ)
  | drawArrays (mode : Nat) (first count : Int)
  deriving DecidableEq, Repr

/-- Oracle model of the WebGlRenderingContext: what each query returns.
Shader, program and buffer handles are natural numbers; createBuffer is
keyed by the call index (0 = first call, 1 = second call). -/
structure GLCtx where
  createShader : Nat → Option Nat
  compileStatus : Nat → JsVal
  shaderInfoLog : Nat → Option String
  createProgram : Option Nat
  linkStatus : Nat → JsVal
  programInfoLog : Nat → Option String
  createBuffer : Nat → Option Nat
  attribLocation : String → Int
  uniformLocation : String → Option Nat

/-- Canvas height constant from the source. -/
def CANVAS_HEIGHT : Nat := 600

/-- Canvas width constant from the source. -/
def CANVAS_WIDTH : Nat := 600

/-- Vertex shader source string from the source file. -/
def vs_source : String :=
  "attribute vec4 aVertexPosition; uniform mat4 uModelViewMatrix; uniform mat4 uProjectionMatrix; void main() \x7b gl_Position = uProjectionMatrix * uModelViewMatrix * aVertexPosition; \x7d"

/-- Fragment shader source string from the source file. -/
def fs_source : String :=
  "void main() \x7b gl_FragColor = vec4(1.0, 1.0, 1.0, 1.0); \x7d"

/-- Embedding of load_shader: create a shader object, submit the source,
compile, then branch on COMPILE_STATUS read as a boolean with default
false; on failure return the info log, or a generic message when the
context has no log. -/
def load_shader (ctx : GLCtx) (shader_type : Nat) (_source : String) :
    Except String Nat :=
  match ctx.createShader shader_type with
  | none => .error "Unable to create shader object"
  | some shader =>
    if (ctx.compileStatus shader).asBool.getD false then
      .ok shader
    else
      .error ((ctx.shaderInfoLog shader).getD "Unknown error creating shader")

/-- Embedding of init_shader_program: compile both shaders, create a
program object, attach and link, then branch on LINK_STATUS read as a
boolean with default false. -/
def init_shader_program (ctx : GLCtx) (vert_shader frag_shader : String) :
    Except String Nat :=
  match load_shader ctx VERTEX_SHADER vert_shader with
  | .error e => .error e
  | .ok _vertex_shader =>
    match load_shader ctx FRAGMENT_SHADER frag_shader with
    | .error e => .error e
    | .ok _fragment_shader =>
      match ctx.createProgram with
      | none => .error "Unable to create shader object"
      | some shader_program =>
        if (ctx.linkStatus shader_program).asBool.getD false then
          .ok shader_program
        else
          .error ((ctx.programInfoLog shader_program).getD
            "Unknown error creating program object")

/-- The position data uploaded by init_buffers. -/
def positions : List ℚ := [-1, 1, 1, 1, -1, -1, 1, -1]

/-- The color data uploaded by init_buffers: white, red, green, blue. -/
def colors : List ℚ :=
  [1, 1, 1, 1,
   1, 0, 0, 1,
   0, 1, 0, 1,
   0, 0, 1, 1]

/-- Embedding of init_buffers: create a position buffer (the first
createBuffer call) and bail out with the string the source uses there if
it is none; bind it and upload the positions with STATIC_DRAW; then create
a color buffer (the second createBuffer call), bail out with the string
the source uses there if it is none; bind it and upload the colors with
STATIC_DRAW.  Returns the result together with the trace of buffer
commands issued. -/
def init_buffers (ctx : GLCtx) :
    Except String (Nat × Nat) × List GLCall :=
  match ctx.createBuffer 0 with
  | none => (.error "Error creating color buffer", [])
  | some position_buffer =>
    let t1 : List GLCall :=
      [.bindBuffer ARRAY_BUFFER (some position_buffer),
       .bufferData ARRAY_BUFFER positions STATIC_DRAW]
    match ctx.createBuffer 1 with
    | none => (.error "Error creating position buffer", t1)
    | some color_buffer =>
      (.ok (position_buffer, color_buffer),
       t1 ++ [.bindBuffer ARRAY_BUFFER (some color_buffer),
              .bufferData ARRAY_BUFFER colors STATIC_DRAW])

/-- The aspect-ratio computation of draw_scene: (CANVAS_HEIGHT /
CANVAS_WIDTH) as f32, a Nat division truncated before conversion. -/
def aspectRatio (h w : Nat) : ℚ := ((h / w : Nat) : ℚ)

/-- The ASPECT constant of draw_scene. -/
def ASPECT : ℚ := aspectRatio CANVAS_HEIGHT CANVAS_WIDTH

/-- Near clip plane. -/
def Z_NEAR : ℚ := 1 / 10

/-- Far clip plane. -/
def Z_FAR : ℚ := 100

/-- cgmath Matrix4::from(PerspectiveFov), column-major, parametrised by
f = cot(fovy / 2) (irrational for the 45-degree field of view, hence a
parameter of the embedding). -/
def perspectiveMatrix (f aspect near far : ℚ) : List ℚ :=
  [f / aspect, 0, 0, 0,
   0, f, 0, 0,
   0, 0, (far + near) / (near - far), -1,
   0, 0, (2 * far * near) / (near - far), 0]

/-- cgmath Matrix4::from_translation, column-major: identity with the
given vector in the fourth column. -/
def from_translation (x y z : ℚ) : List ℚ :=
  [1, 0, 0, 0,
   0, 1, 0, 0,
   0, 0, 1, 0,
   x, y, z, 1]

/-- The model-view matrix built by draw_scene: translation by
(-0.0, 0.0, -6.0). -/
def modelViewMatrix : List ℚ := from_translation (-0) 0 (-6)

/-- Embedding of draw_scene: emits the trace of WebGL commands in source
order and returns Ok.  The attribute location is cast from i32 to u32 as
in the source (Euclidean remainder modulo 2^32); cotHalfFov stands for
cot(FIELD_OF_VIEW / 2) in the projection matrix. -/
def draw_scene (ctx : GLCtx) (buffers : Nat × Nat) (shader_program : Nat)
    (cotHalfFov : ℚ) : Except String Unit × List GLCall :=
  let vertex_position : Nat :=
    ((ctx.attribLocation "aVertexPosition") % (2 ^ 32 : Int)).toNat
  let projection_matrix : List ℚ :=
    perspectiveMatrix cotHalfFov ASPECT Z_NEAR Z_FAR
  (.ok (),
   [.clearColor 0 0 0 1,
    .clearDepth 1,
    .enable DEPTH_TEST,
    .depthFunc LEQUAL,
    .clear COLOR_BUFFER_BIT,
    .clear DEPTH_BUFFER_BIT,
    .bindBuffer ARRAY_BUFFER (some buffers.1),
    .vertexAttribPointer vertex_position 2 FLOAT false 0 0,
    .enableVertexAttribArray vertex_position,
    .useProgram (some shader_program),
    .uniformMatrix4fv (ctx.uniformLocation "uProjectionMatrix") false
      projection_matrix,
    .uniformMatrix4fv (ctx.uniformLocation "uModelViewMatrix") false
      modelViewMatrix,
    .drawArrays TRIANGLE_STRIP 0 4])

/-- Embedding of the error flow of start (canvas acquisition and the
initial clear are outside the embedding): failures of
init_shader_program and init_buffers propagate through the ? operator,
which converts the String into the JsValue error verbatim; a draw_scene
failure is replaced by the generic string Error. -/
def start (ctx : GLCtx) (cotHalfFov : ℚ) : Except String Unit :=
  match init_shader_program ctx vs_source fs_source with
  | .error e => .error e
  | .ok shader_program =>
    match (init_buffers ctx).1 with
    | .error e => .error e
    | .ok buffers =>
      match (draw_scene ctx buffers shader_program cotHalfFov).1 with
      | .ok _ => .ok ()
      | .error _ => .error "Error"

/-- Recognizer for buffer-upload events in a trace. -/
def GLCall.isBufferData : GLCall → Bool
  | .bufferData _ _ _ => true
  | _ => false

/-- Recognizer for draw-call events in a trace. -/
def GLCall.isDraw : GLCall → Bool
  | .drawArrays _ _ _ => true
  | _ => false

/-- Phase number of a command inside draw_scene, for ordering claims:
0 = clear-state configuration, 1 = clears, 2 = buffer binding and vertex
attribute setup, 3 = program activation, 4 = uniform uploads, 5 = draw. -/
def GLCall.phase : GLCall → Nat
  | .clearColor _ _ _ _ => 0
  | .clearDepth _ => 0
  | .enable _ => 0
  | .depthFunc _ => 0
  | .clear _ => 1
  | .bindBuffer _ _ => 2
  | .bufferData _ _ _ => 2
  | .vertexAttribPointer _ _ _ _ _ _ => 2
  | .enableVertexAttribArray _ => 2
  | .useProgram _ => 3
  | .uniformMatrix4fv _ _ _ => 4
  | .drawArrays _ _ _ => 5

/-- Spec-side shape for claim C4: the identity matrix except that the
fourth (translation) column is (x, y, z, 1), column-major. -/
def identityWithTranslationColumn (x y z : ℚ) : List ℚ :=
  [1, 0, 0, 0,
   0, 1, 0, 0,
   0, 0, 1, 0,
   x, y, z, 1]

/-- A context on which the first createBuffer call (the position buffer)
fails. -/
def ctxPositionBufferFails : GLCtx where
  createShader := fun _ => some 1
  compileStatus := fun _ => .boolean true
  shaderInfoLog := fun _ => none
  createProgram := some 7
  linkStatus := fun _ => .boolean true
  programInfoLog := fun _ => none
  createBuffer := fun _ => none
  attribLocation := fun _ => 0
  uniformLocation := fun _ => none

/-- A context on which the first createBuffer call succeeds and the
second (the color buffer) fails. -/
def ctxColorBufferFails : GLCtx where
  createShader := fun _ => some 1
  compileStatus := fun _ => .boolean true
  shaderInfoLog := fun _ => none
  createProgram := some 7
  linkStatus := fun _ => .boolean true
  programInfoLog := fun _ => none
  createBuffer := fun i => if i = 0 then some 11 else none
  attribLocation := fun _ => 0
  uniformLocation := fun _ => none

/-- A context on which both createBuffer calls succeed. -/
def ctxBuffersOk : GLCtx where
  createShader := fun _ => some 1
  compileStatus := fun _ => .boolean true
  shaderInfoLog := fun _ => none
  createProgram := some 7
  linkStatus := fun _ => .boolean true
  programInfoLog := fun _ => none
  createBuffer := fun i => some (i + 11)
  attribLocation := fun _ => 0
  uniformLocation := fun _ => none

/-- A context on which shader compilation fails and the info log exists
but is the empty string. -/
def ctxCompileFailEmptyLog : GLCtx where
  createShader := fun _ => some 1
  compileStatus := fun _ => .boolean false
  shaderInfoLog := fun _ => some ""
  createProgram := some 7
  linkStatus := fun _ => .boolean false
  programInfoLog := fun _ => none
  createBuffer := fun _ => none
  attribLocation := fun _ => 0
  uniformLocation := fun _ => none

/-- A context on which shader compilation fails with a non-empty info
log. -/
def ctxCompileFailWithLog : GLCtx where
  createShader := fun _ => some 1
  compileStatus := fun _ => .boolean false
  shaderInfoLog := fun _ => some "0:1: syntax error"
  createProgram := some 7
  linkStatus := fun _ => .boolean false
  programInfoLog := fun _ => none
  createBuffer := fun _ => none
  attribLocation := fun _ => 0
  uniformLocation := fun _ => none

/-- A context on which the vertex shader fails to compile with a
specific diagnostic text. -/
def ctxShaderFailSpecific : GLCtx where
  createShader := fun _ => some 1
  compileStatus := fun _ => .boolean false
  shaderInfoLog := fun _ => some "ERROR: 0:1: unexpected token"
  createProgram := some 7
  linkStatus := fun _ => .boolean false
  programInfoLog := fun _ => none
  createBuffer := fun _ => none
  attribLocation := fun _ => 0
  uniformLocation := fun _ => none

/-- A context on which the whole pipeline succeeds. -/
def ctxAllOk : GLCtx where
  createShader := fun t => some t
  compileStatus := fun _ => .boolean true
  shaderInfoLog := fun _ => none
  createProgram := some 7
  linkStatus := fun _ => .boolean true
  programInfoLog := fun _ => none
  createBuffer := fun i => some (i + 11)
  attribLocation := fun _ => 0
  uniformLocation := fun _ => none

/-- A JsVal whose as_bool reads true with default false is the literal
boolean true. -/
theorem JsVal.asBool_getD_eq_true {v : JsVal}
    (h : v.asBool.getD false = true) : v = .boolean true := by
  cases v with
  | boolean b =>
    cases b with
    | false => simp [JsVal.asBool] at h
    | true => rfl
  | undef => simp [JsVal.asBool] at h
  | other => simp [JsVal.asBool] at h

/- ------------------------------------------------------------------ -/
/- Theorems -/
/- ------------------------------------------------------------------ -/

/-- C1: in init_buffers the two allocation-failure messages are swapped
relative to the buffer that actually failed: a failed position-buffer
allocation (the first createBuffer call) is reported with the color-buffer
message, and a failed color-buffer allocation with the position-buffer
message.  This refutes the claim that each failure identifies the buffer
that failed. -/
theorem C1_buffer_error_messages_swapped :
    (init_buffers ctxPositionBufferFails).1 =
      .error "Error creating color buffer" ∧
    (init_buffers ctxColorBufferFails).1 =
      .error "Error creating position buffer" := by
  constructor <;> rfl

/-- C2: whenever init_buffers succeeds, its trace contains exactly two
buffer uploads, in order: the 8 position values in the literal order
(-1,1, 1,1, -1,-1, 1,-1) and then the 16 color values in the literal
order (1,1,1,1, 1,0,0,1, 0,1,0,1, 0,0,1,1), both with the STATIC_DRAW
usage hint. -/
theorem C2_buffer_uploads (ctx : GLCtx) (r : Nat × Nat)
    (h : (init_buffers ctx).1 = .ok r) :
    (init_buffers ctx).2.filter GLCall.isBufferData =
      [.bufferData ARRAY_BUFFER positions STATIC_DRAW,
       .bufferData ARRAY_BUFFER colors STATIC_DRAW] ∧
    positions = [-1, 1, 1, 1, -1, -1, 1, -1] ∧ positions.length = 8 ∧
    colors = [1, 1, 1, 1, 1, 0, 0, 1, 0, 1, 0, 1, 0, 0, 1, 1] ∧
    colors.length = 16 := by
  cases h0 : ctx.createBuffer 0 with
  | none => simp [init_buffers, h0] at h
  | some pb =>
    cases h1 : ctx.createBuffer 1 with
    | none => simp [init_buffers, h0, h1] at h
    | some cb =>
      refine ⟨?_, rfl, rfl, rfl, rfl⟩
      simp [init_buffers, h0, h1, GLCall.isBufferData]

/-- C2 witness: a concrete context on which init_buffers succeeds. -/
theorem C2_buffer_uploads_witness :
    (init_buffers ctxBuffersOk).1 = .ok (11, 12) ∧
    (init_buffers ctxBuffersOk).2.filter GLCall.isBufferData =
      [.bufferData ARRAY_BUFFER positions STATIC_DRAW,
       .bufferData ARRAY_BUFFER colors STATIC_DRAW] :=
  ⟨rfl, (C2_buffer_uploads ctxBuffersOk (11, 12) rfl).1⟩

/-- C3: the aspect ratio is the truncating natural-number division of
canvas height by canvas width, converted to a rational afterwards (for
any height and width it equals the floor of the exact real quotient), and
for the reference 600 by 600 configuration it is exactly 1. -/
theorem C3_aspect_integer_division :
    (∀ h w : ℕ, aspectRatio h w = ((⌊(h : ℚ) / (w : ℚ)⌋₊ : ℕ) : ℚ)) ∧
    ASPECT = 1 := by
  constructor
  · intro h w
    rw [aspectRatio, Nat.floor_div_nat, Nat.floor_natCast]
  · decide

/-- C4: the model-view matrix built by draw_scene is the identity matrix
except that its fourth (translation) column is (0, 0, -6, 1), in
column-major layout. -/
theorem C4_model_view_translation :
    modelViewMatrix = identityWithTranslationColumn 0 0 (-6) := by
  decide

/-- C5: a single invocation of draw_scene issues exactly one draw call,
and it is a triangle-strip draw of 4 vertices starting at offset 0, for
every context, buffer pair, program and field-of-view parameter. -/
theorem C5_single_draw_call (ctx : GLCtx) (b : Nat × Nat) (p : Nat)
    (f : ℚ) :
    (draw_scene ctx b p f).2.filter GLCall.isDraw =
      [.drawArrays TRIANGLE_STRIP 0 4] := by
  rfl

/-- C7: within one invocation of draw_scene the phases of the issued
commands are monotone along the trace in the order clear-state
configuration (0), clears (1), position-buffer binding and vertex
attribute setup (2), program activation (3), uniform-matrix uploads (4),
draw call (5), and the configuration phase consists of the clear color
opaque black, clear depth 1, enabling the depth test and the
less-or-equal depth comparison, with the position buffer (the first
component of the pair) being the one bound. -/
theorem C7_call_ordering (ctx : GLCtx) (b : Nat × Nat) (p : Nat)
    (f : ℚ) :
    (draw_scene ctx b p f).2.map GLCall.phase =
      [0, 0, 0, 0, 1, 1, 2, 2, 2, 3, 4, 4, 5] ∧
    GLCall.clearColor 0 0 0 1 ∈ (draw_scene ctx b p f).2 ∧
    GLCall.clearDepth 1 ∈ (draw_scene ctx b p f).2 ∧
    GLCall.enable DEPTH_TEST ∈ (draw_scene ctx b p f).2 ∧
    GLCall.depthFunc LEQUAL ∈ (draw_scene ctx b p f).2 ∧
    GLCall.bindBuffer ARRAY_BUFFER (some b.1) ∈ (draw_scene ctx b p f).2 ∧
    GLCall.drawArrays TRIANGLE_STRIP 0 4 ∈ (draw_scene ctx b p f).2 := by
  refine ⟨rfl, ?_, ?_, ?_, ?_, ?_, ?_⟩ <;> simp [draw_scene]

/-- C9: draw_scene is infallible: for every context, buffer pair, program
and field-of-view parameter it returns the success value. -/
theorem C9_draw_scene_infallible (ctx : GLCtx) (b : Nat × Nat) (p : Nat)
    (f : ℚ) :
    (draw_scene ctx b p f).1 = .ok () := by
  rfl

/-- C6 counterexample: on a context whose compile status is false and
whose info log is present but empty, load_shader returns an error whose
diagnostic text is the empty string, refuting the part of the claim that
says the diagnostic text is non-empty for every failed compilation. -/
theorem C6_counterexample_empty_log :
    ctxCompileFailEmptyLog.compileStatus 1 = .boolean false ∧
    load_shader ctxCompileFailEmptyLog VERTEX_SHADER vs_source =
      .error "" ∧
    ("" : String).length = 0 :=
  ⟨rfl, rfl, rfl⟩

/-- C6 amended: when compilation fails, load_shader returns an error
carrying the info log retrieved from the context, falling back to the
generic message exactly when no log is available, and the diagnostic text
is non-empty provided the retrieved log, when present, is non-empty. -/
theorem C6_failure_diagnostics (ctx : GLCtx) (t : Nat) (src : String)
    (s : Nat) (hc : ctx.createShader t = some s)
    (hs : (ctx.compileStatus s).asBool.getD false = false) :
    load_shader ctx t src =
      .error ((ctx.shaderInfoLog s).getD "Unknown error creating shader") ∧
    (ctx.shaderInfoLog s ≠ some "" →
      (ctx.shaderInfoLog s).getD "Unknown error creating shader" ≠ "") := by
  constructor
  · simp [load_shader, hc, hs]
  · intro hne
    cases hl : ctx.shaderInfoLog s with
    | none => simp
    | some l =>
      rw [hl] at hne
      simp only [Option.getD_some]
      intro hEq
      exact hne (by rw [hEq])

/-- C6 witness: a concrete failing compilation with a non-empty log. -/
theorem C6_failure_diagnostics_witness :
    load_shader ctxCompileFailWithLog VERTEX_SHADER vs_source =
      .error "0:1: syntax error" ∧
    ("0:1: syntax error" : String) ≠ "" := by
  have h := C6_failure_diagnostics ctxCompileFailWithLog VERTEX_SHADER
    vs_source 1 rfl rfl
  exact ⟨h.1, h.2 (by decide)⟩

/-- C8 counterexample: on a context whose vertex shader fails to compile
with a specific diagnostic, start propagates that exact diagnostic to the
caller instead of the generic Error value, refuting the claim that start
collapses every pipeline failure into a single generic error. -/
theorem C8_counterexample_specific_diagnostic :
    start ctxShaderFailSpecific 1 =
      .error "ERROR: 0:1: unexpected token" ∧
    ("ERROR: 0:1: unexpected token" : String) ≠ "Error" := by
  exact ⟨rfl, by decide⟩

/-- C8 amended: start propagates the specific diagnostic text of a
shader-compilation, linking or buffer-allocation failure unchanged to the
caller; only a draw_scene failure would be collapsed into the generic
Error value, and when shader-program setup and buffer setup both succeed,
start succeeds. -/
theorem C8_error_flow (ctx : GLCtx) (f : ℚ) :
    (∀ e, init_shader_program ctx vs_source fs_source = .error e →
       start ctx f = .error e) ∧
    (∀ p e, init_shader_program ctx vs_source fs_source = .ok p →
       (init_buffers ctx).1 = .error e → start ctx f = .error e) ∧
    (∀ p b, init_shader_program ctx vs_source fs_source = .ok p →
       (init_buffers ctx).1 = .ok b → start ctx f = .ok ()) := by
  refine ⟨?_, ?_, ?_⟩
  · intro e he
    simp [start, he]
  · intro p e hp he
    simp [start, hp, he]
  · intro p b hp hb
    simp [start, hp, hb, draw_scene]

/-- C8 witness: on a fully succeeding context, start succeeds. -/
theorem C8_error_flow_witness : start ctxAllOk 1 = .ok () :=
  (C8_error_flow ctxAllOk 1).2.2 7 (11, 12) rfl rfl

/-- C10: the compile-status check of load_shader and the link-status
check of init_shader_program read the status with as_bool and default
false, so the success branch is taken only when the context reports the
literal boolean true: whenever load_shader or init_shader_program
succeeds, the corresponding status value was the boolean true, hence an
absent or non-boolean status can never be mistaken for success. -/
theorem C10_status_defaults_false (ctx : GLCtx) (t : Nat)
    (src vert frag : String) :
    (∀ s, load_shader ctx t src = .ok s →
       ctx.compileStatus s = .boolean true) ∧
    (∀ p, init_shader_program ctx vert frag = .ok p →
       ctx.linkStatus p = .boolean true) := by
  constructor
  · intro s hs
    cases hc : ctx.createShader t with
    | none => simp [load_shader, hc] at hs
    | some sh =>
      by_cases hb : (ctx.compileStatus sh).asBool.getD false = true
      · have hsh : sh = s := by
          simp [load_shader, hc, hb] at hs
          exact hs
        subst hsh
        exact JsVal.asBool_getD_eq_true hb
      · simp [load_shader, hc, hb] at hs
  · intro p hp
    cases h1 : load_shader ctx VERTEX_SHADER vert with
    | error e => simp [init_shader_program, h1] at hp
    | ok v =>
      cases h2 : load_shader ctx FRAGMENT_SHADER frag with
      | error e => simp [init_shader_program, h1, h2] at hp
      | ok fr =>
        cases h3 : ctx.createProgram with
        | none => simp [init_shader_program, h1, h2, h3] at hp
        | some pr =>
          by_cases hb : (ctx.linkStatus pr).asBool.getD false = true
          · have hpr : pr = p := by
              simp [init_shader_program, h1, h2, h3, hb] at hp
              exact hp
            subst hpr
            exact JsVal.asBool_getD_eq_true hb
          · simp [init_shader_program, h1, h2, h3, hb] at hp

/-- C10 witness: a concrete context on which both checks succeed, with
the literal boolean true statuses recovered by the theorem. -/
theorem C10_status_defaults_false_witness :
    ctxAllOk.compileStatus 35633 = .boolean true ∧
    ctxAllOk.linkStatus 7 = .boolean true :=
  ⟨(C10_status_defaults_false ctxAllOk VERTEX_SHADER "src" vs_source
      fs_source).1 35633 rfl,
   (C10_status_defaults_false ctxAllOk VERTEX_SHADER "src" vs_source
      fs_source).2 7 rfl⟩

end HelloWasm
